import Mathlib

/-!
# Billing reconciliation core of the super-meme backend: shallow embedding

This file embeds, in Lean, the subscription/billing logic of the repository:
the Stripe subscription service (`subscribe`, `cancelSubscription`,
`handleStripeWebhook`), the entitlement-gate middlewares (`requireFeature`,
`checkClientLimit`, `checkAIGenerationLimit` with the `PLAN_LIMITS` table),
the Flutterwave provider helpers (`verifyWebhookSignature`,
`initializeSubscriptionPayment`), the two webhook routers, and the
callback-verification controller.

Documents are modelled as records, collections as lists, and Mongo's
`findOneAndUpdate` / `findByIdAndUpdate` as an update of the first matching
list element.  External provider calls are modelled as explicit inputs: the
raw SDK outcomes are parameters, the `stripe.config.js` wrappers (bundled in
`src/src/utils/aiGenerator.js`) that convert SDK failures into `ApiError`s
are embedded, and the fact that a call happened is recorded in a call log.
Dates are integers in milliseconds since the epoch (`new Date(sec * 1000)`
becomes `sec * 1000`).
-/

namespace SuperMeme

/-- The `ApiError` from `src/utils/apiError.js`: an HTTP status code, a message
and an optional machine-readable code. -/
structure ApiErr where
  statusCode : Nat
  message : String
  code : Option String
deriving Repr, DecidableEq

def ApiErr.badRequest (m : String) (c : String) : ApiErr := ⟨400, m, some c⟩

def ApiErr.unauthorized (m : String) (c : String) : ApiErr := ⟨401, m, some c⟩

def ApiErr.forbidden (m : String) (c : String) : ApiErr := ⟨403, m, some c⟩

def ApiErr.notFound (m : String) (c : String) : ApiErr := ⟨404, m, some c⟩

def ApiErr.internalServerError (m : String) (c : String) : ApiErr := ⟨500, m, some c⟩

/-- A `User` document (fields of `user.model.js` used by the billing core:
`plan`, `isSubActive`, `subscriptionId`, `aiGenerationsThisMonth`, identity
fields, and the Stripe customer correlation used by the webhook handler). -/
structure UserRec where
  id : Nat
  email : String
  plan : String
  isSubActive : Bool
  subscriptionId : Option Nat
  stripeCustomerId : Option String
  aiGenerationsThisMonth : Nat
deriving Repr, DecidableEq

/-- A `Subscription` document: unique per user, with plan, status, provider
correlation ids, period boundaries and a stored payment method.  The Stripe
revision of `subscription.model.js` carries `stripeCustomerId` and
`stripeSubscriptionId`; the Flutterwave revision replaces them with
`flwSubscriptionId`/`flwTxRef` — the transaction reference is kept here as
`flwTxRef` so the callback verifier can correlate by it. -/
structure SubRecord where
  id : Nat
  userId : Nat
  planId : String
  status : String
  stripeCustomerId : Option String
  stripeSubscriptionId : Option String
  startDate : Option Int
  dueDate : Option Int
  paymentMethod : Option String
  flwTxRef : Option String
deriving Repr, DecidableEq

/-- The document store: the `users` and `subscriptions` collections, plus a
counter allocating `_id`s for upserted subscription documents. -/
structure DB where
  users : List UserRec
  subs : List SubRecord
  nextSubId : Nat
deriving Repr, DecidableEq

/-- The `findOneAndUpdate` / `findByIdAndUpdate` update semantics: apply `f` to
the first element matching `p`, leave everything else unchanged. -/
def updateFirstWhere (p : α → Bool) (f : α → α) : List α → List α
  | [] => []
  | x :: xs => if p x then f x :: xs else x :: updateFirstWhere p f xs

def DB.findUserById (db : DB) (uid : Nat) : Option UserRec :=
  db.users.find? (fun u => u.id == uid)

def DB.findSubByUserId (db : DB) (uid : Nat) : Option SubRecord :=
  db.subs.find? (fun s => s.userId == uid)

def DB.findSubByStripeSubId (db : DB) (sid : String) : Option SubRecord :=
  db.subs.find? (fun s => s.stripeSubscriptionId == some sid)

/-- Embeds `User.findByIdAndUpdate(uid, ...)`: update the matched user, no-op when
absent. -/
def DB.updateUserById (db : DB) (uid : Nat) (f : UserRec → UserRec) : DB :=
  { db with users := updateFirstWhere (fun u => u.id == uid) f db.users }

/-- Schema validation for `Subscription.planId` (`enum: ["premium",
"enterprise"]` in the Stripe-era model). -/
def subPlanIdValid (p : String) : Bool :=
  p == "premium" || p == "enterprise"

/-- Schema validation for `Subscription.status` (`enum: ["trialing",
"active", "canceled", "overdue"]` in the Stripe-era model). -/
def subStatusValid (s : String) : Bool :=
  s == "trialing" || s == "active" || s == "canceled" || s == "overdue"

/-- Embeds `subscriptionService.stripePriceIds`: the static plan catalog of the
Stripe service, mapping paid plan ids to Stripe price ids. -/
def stripePriceIds (planId : String) : Option String :=
  if planId == "premium" then some "price_1RxqOcRpcgBDjLSAxTUdiLcG"
  else if planId == "enterprise" then some "price_1RxqP0RpcgBDjLSAVo8ko9k1"
  else none

/-- A Stripe subscription object as consumed by the service: id, status,
customer, the first item's price id, and the current period bounds
(seconds since epoch). -/
structure StripeSubObj where
  id : String
  status : String
  customer : String
  priceId : String
  currentPeriodStart : Int
  currentPeriodEnd : Int
deriving Repr, DecidableEq

/-- A raw error of the Stripe SDK (carrying the `error.type` that
`subscribe`'s catch block dispatches on; in the present code every wrapper
of `stripe.config.js` converts such errors before that catch sees them). -/
structure StripeErr where
  type : String
  message : String
deriving Repr, DecidableEq

instance {ε α : Type} [DecidableEq ε] [DecidableEq α] : DecidableEq (Except ε α) := fun x y =>
  match x, y with
  | .ok a, .ok b =>
    if h : a = b then isTrue (by rw [h]) else isFalse (fun hc => h (Except.ok.inj hc))
  | .error a, .error b =>
    if h : a = b then isTrue (by rw [h]) else isFalse (fun hc => h (Except.error.inj hc))
  | .ok _, .error _ => isFalse (fun hc => Except.noConfusion hc)
  | .error _, .ok _ => isFalse (fun hc => Except.noConfusion hc)

/-- The provider calls `subscribe` can make (the wrappers of
`stripe.config.js`); recorded in a log so that "no external call occurs" is
a statement about the embedding. -/
inductive StripeCall
  | findOrCreateCustomer
  | attachPaymentMethod
  | updateSubscription
  | createSubscription
  | cancelSubscription
deriving Repr, DecidableEq

/-- The provider side of one `subscribe` invocation: the customer id
resolved by `findOrCreateStripeCustomer` and the raw SDK outcomes of the
subscription update/create calls.  The customer and payment-method wrappers
are modelled as succeeding; their failure paths (also no-code 500
`ApiError`s rethrown unchanged, per `stripe.config.js`) are not exercised
by any claim. -/
structure StripeEnv where
  customerId : String
  updateResult : Except StripeErr StripeSubObj
  createResult : Except StripeErr StripeSubObj
deriving Repr, DecidableEq

/-- Embeds `updateStripeSubscription` from `stripe.config.js` (bundled in
`src/src/utils/aiGenerator.js`): any SDK failure is caught and rethrown as
`ApiError.internalServerError("Failed to update Stripe subscription.")`,
a 500 with no machine code. -/
def updateStripeSubscription (raw : Except StripeErr StripeSubObj) :
    Except ApiErr StripeSubObj :=
  match raw with
  | .ok s => .ok s
  | .error _ => .error ⟨500, "Failed to update Stripe subscription.", none⟩

/-- Embeds `createStripeSubscription` from `stripe.config.js` (bundled in
`src/src/utils/aiGenerator.js`): any SDK failure is caught and rethrown as
`ApiError.internalServerError("Failed to create Stripe subscription.")`,
a 500 with no machine code. -/
def createStripeSubscription (raw : Except StripeErr StripeSubObj) :
    Except ApiErr StripeSubObj :=
  match raw with
  | .ok s => .ok s
  | .error _ => .error ⟨500, "Failed to create Stripe subscription.", none⟩

/-- The success payload of `subscribe`: either the immediate free-plan switch or
the upserted subscription document. -/
inductive SubscribeOk
  | freePlan
  | paidPlan (sub : SubRecord)
deriving Repr, DecidableEq

/-- The observable outcome of one `subscribe` call: the resulting store, the
returned value or thrown `ApiError`, and the provider calls made. -/
structure SubscribeOutput where
  db : DB
  result : Except ApiErr SubscribeOk
  calls : List StripeCall
deriving Repr, DecidableEq

/-- The union of values `subscribe`'s try block can throw: `ApiError`
instances (its own guard errors and every `stripe.config.js` wrapper
failure), raw Stripe SDK errors (none escape the wrappers in the present
code), and Mongoose validation errors from the upsert's `runValidators`. -/
inductive SubscribeThrown
  | apiError (e : ApiErr)
  | stripeError (e : StripeErr)
  | validationError
deriving Repr, DecidableEq

/-- The catch block of `subscribe`: an `ApiError` is rethrown unchanged
(`error instanceof ApiError`); a raw `StripeCardError` becomes the 400
`STRIPE_CARD_ERROR`; anything else (a validation error, or a raw SDK error
of another type) becomes the 500 `SUBSCRIBE_FAILED`. -/
def subscribeCatch : SubscribeThrown → ApiErr
  | .apiError e => e
  | .stripeError e =>
    if e.type == "StripeCardError" then ApiErr.badRequest e.message "STRIPE_CARD_ERROR"
    else ApiErr.internalServerError "Failed to subscribe to the plan." "SUBSCRIBE_FAILED"
  | .validationError =>
    ApiErr.internalServerError "Failed to subscribe to the plan." "SUBSCRIBE_FAILED"

instance : Inhabited SubRecord :=
  ⟨⟨0, 0, "", "", none, none, none, none, none, none⟩⟩

/-- Embeds `Subscription.findOneAndUpdate({ userId }, data, { new: true, upsert:
true })`: update the user's record when one exists, otherwise insert a
fresh document carrying the update's fields; returns the store and the
resulting document. -/
def DB.upsertSubByUserId (db : DB) (uid : Nat) (setData : SubRecord → SubRecord) :
    DB × SubRecord :=
  match db.findSubByUserId uid with
  | some ex =>
    ({ db with subs := updateFirstWhere (fun r => r.userId == uid) setData db.subs },
     setData ex)
  | none =>
    let r := setData { (default : SubRecord) with id := db.nextSubId }
    ({ db with subs := db.subs ++ [r], nextSubId := db.nextSubId + 1 }, r)

/-- The tail of `subscribe`'s paid path: build `subscriptionData` with
`status: "active"` and the period dates from the Stripe subscription, upsert
it by `userId` with `runValidators` (a validation failure is caught and
surfaced as `SUBSCRIBE_FAILED`), then point the user at the new plan with
`isSubActive: true`. -/
def finalizePaidSubscription (db : DB) (userId : Nat) (planId : String)
    (stripeCustomerId : String) (s : StripeSubObj) (paymentMethodId : Option String)
    (calls : List StripeCall) : SubscribeOutput :=
  if subPlanIdValid planId && subStatusValid "active" then
    let res := db.upsertSubByUserId userId (fun r =>
      { r with userId := userId, planId := planId, status := "active",
               stripeCustomerId := some stripeCustomerId,
               stripeSubscriptionId := some s.id,
               startDate := some (s.currentPeriodStart * 1000),
               dueDate := some (s.currentPeriodEnd * 1000),
               paymentMethod := paymentMethodId })
    let db2 := res.1.updateUserById userId (fun u =>
      { u with plan := planId, isSubActive := true, subscriptionId := some res.2.id })
    ⟨db2, .ok (.paidPlan res.2), calls⟩
  else
    ⟨db, .error (subscribeCatch .validationError), calls⟩

/-- Embeds `subscriptionService.subscribe(userId, planId, paymentMethodId)`:
look up the user; require a payment method for paid plans; resolve the
Stripe customer; then either update an existing Stripe subscription, create
a new one for a paid plan, or switch the user to the free plan (note the
free branch's cancel-and-delete is guarded by a condition that is false on
that branch).  Provider failures run through the catch block. -/
def subscribe (db : DB) (env : StripeEnv) (userId : Nat) (planId : String)
    (paymentMethodId : Option String) : SubscribeOutput :=
  match db.findUserById userId with
  | none => ⟨db, .error (ApiErr.notFound "User not found." "USER_NOT_FOUND"), []⟩
  | some _user =>
    let isPaidPlan : Bool := planId != "free"
    if isPaidPlan && paymentMethodId == none then
      ⟨db, .error (ApiErr.badRequest "Payment method is required for paid plans." "PAYMENT_METHOD_REQUIRED"), []⟩
    else
      let stripeCustomerId := env.customerId
      let calls0 : List StripeCall := [.findOrCreateCustomer]
      let calls1 := if isPaidPlan then calls0 ++ [.attachPaymentMethod] else calls0
      let existingSubscription := db.findSubByUserId userId
      match existingSubscription with
      | some ex =>
        if ex.stripeSubscriptionId.isSome then
          let calls2 := calls1 ++ [.updateSubscription]
          match updateStripeSubscription env.updateResult with
          | .error e => ⟨db, .error (subscribeCatch (.apiError e)), calls2⟩
          | .ok stripeSubscription =>
            finalizePaidSubscription db userId planId stripeCustomerId
              stripeSubscription paymentMethodId calls2
        else if isPaidPlan then
          let calls2 := calls1 ++ [.createSubscription]
          match createStripeSubscription env.createResult with
          | .error e => ⟨db, .error (subscribeCatch (.apiError e)), calls2⟩
          | .ok stripeSubscription =>
            finalizePaidSubscription db userId planId stripeCustomerId
              stripeSubscription paymentMethodId calls2
        else
          -- free-plan branch: the inner cancel-and-delete requires
          -- `ex.stripeSubscriptionId` to be present, which is impossible here
          let (dbDel, calls2) :=
            if ex.stripeSubscriptionId.isSome then
              ({ db with subs := db.subs.filter (fun r => r.id != ex.id) },
               calls1 ++ [StripeCall.cancelSubscription])
            else (db, calls1)
          let db2 := dbDel.updateUserById userId (fun u =>
            { u with plan := "free", isSubActive := true, subscriptionId := none })
          ⟨db2, .ok .freePlan, calls2⟩
      | none =>
        if isPaidPlan then
          let calls2 := calls1 ++ [.createSubscription]
          match createStripeSubscription env.createResult with
          | .error e => ⟨db, .error (subscribeCatch (.apiError e)), calls2⟩
          | .ok stripeSubscription =>
            finalizePaidSubscription db userId planId stripeCustomerId
              stripeSubscription paymentMethodId calls2
        else
          let db2 := db.updateUserById userId (fun u =>
            { u with plan := "free", isSubActive := true, subscriptionId := none })
          ⟨db2, .ok .freePlan, calls1⟩

/-- A Stripe invoice object as consumed by `invoice.payment_succeeded`:
its `subscription` reference and the first line's period end (seconds). -/
structure StripeInvoiceObj where
  subscription : Option String
  linePeriodEnd : Int
deriving Repr, DecidableEq

/-- The tagged union of webhook event shapes dispatched on `event.type` in
`handleStripeWebhook` (unknown types fall into `unhandled`). -/
inductive StripeEvent
  | customerSubscriptionCreated (s : StripeSubObj)
  | customerSubscriptionUpdated (s : StripeSubObj)
  | customerSubscriptionDeleted (s : StripeSubObj)
  | invoicePaymentSucceeded (inv : StripeInvoiceObj)
  | unhandled (eventType : String)
deriving Repr, DecidableEq

/-- The shared body of the `customer.subscription.created` and
`customer.subscription.updated` cases: find the user by Stripe customer,
derive the plan from the price id, upsert the record with the event's raw
`status` (validated against the schema enum because of `runValidators`),
then set `plan` and `isSubActive: true` on the user.  A validation failure
is a thrown error. -/
def applySubscriptionUpsertEvent (db : DB) (s : StripeSubObj) : Except String DB :=
  match db.users.find? (fun u => u.stripeCustomerId == some s.customer) with
  | none => .ok db
  | some user =>
    let planId := if s.priceId == "price_1RxqOcRpcgBDjLSAxTUdiLcG" then "premium" else "enterprise"
    if subPlanIdValid planId && subStatusValid s.status then
      let setData : SubRecord → SubRecord := fun r =>
        { r with userId := user.id, planId := planId, status := s.status,
                 stripeCustomerId := some s.customer,
                 stripeSubscriptionId := some s.id,
                 startDate := some (s.currentPeriodStart * 1000),
                 dueDate := some (s.currentPeriodEnd * 1000) }
      let db1 := (db.upsertSubByUserId user.id setData).1
      .ok (db1.updateUserById user.id (fun u => { u with plan := planId, isSubActive := true }))
    else
      .error "ValidationError"

/-- Embeds `subscriptionService.handleStripeWebhook(event)`: the event switch.
`customer.subscription.deleted` marks the matched record `canceled` and
downgrades the user; `invoice.payment_succeeded` re-marks the matched
record `active` with the invoice line's period end and re-activates its
user; unknown events are logged no-ops. -/
def handleStripeWebhook (db : DB) (event : StripeEvent) : Except String DB :=
  match event with
  | .customerSubscriptionCreated s => applySubscriptionUpsertEvent db s
  | .customerSubscriptionUpdated s => applySubscriptionUpsertEvent db s
  | .customerSubscriptionDeleted s =>
    match db.findSubByStripeSubId s.id with
    | none => .ok db
    | some sub =>
      let db1 := { db with subs := updateFirstWhere (fun r => r.id == sub.id)
                             (fun r => { r with status := "canceled" }) db.subs }
      .ok (db1.updateUserById sub.userId (fun u =>
        { u with plan := "free", isSubActive := false }))
  | .invoicePaymentSucceeded inv =>
    match inv.subscription with
    | none => .ok db
    | some sid =>
      match db.findSubByStripeSubId sid with
      | none => .ok db
      | some sub =>
        let db1 := { db with subs := updateFirstWhere (fun r => r.stripeSubscriptionId == some sid)
                               (fun r => { r with status := "active",
                                                  dueDate := some (inv.linePeriodEnd * 1000) }) db.subs }
        .ok (db1.updateUserById sub.userId (fun u => { u with isSubActive := true }))
  | .unhandled _ => .ok db

/-- One processing of a (possibly redelivered) webhook event, as seen by
the store: the resulting state on success, the pre-mutation state when the
handler throws (the throwing paths mutate nothing first). -/
def stripeStep (event : StripeEvent) (db : DB) : DB :=
  match handleStripeWebhook db event with
  | .ok db1 => db1
  | .error _ => db

/-! ## Entitlement gate (`plan.middleware`, `PLAN_LIMITS`) -/

/-- One plan's row of `PLAN_LIMITS`: count ceilings (`none` embeds the
JavaScript `Infinity`, for which `count >= Infinity` is always false) and
boolean feature flags. -/
structure PlanLimits where
  maxClients : Option Nat
  maxProjects : Option Nat
  maxAIGenerationsPerMonth : Option Nat
  hasAdvancedMeasurements : Bool
  hasProfessionalPatternDesigner : Bool
  hasCalendarScheduling : Bool
  hasInvoiceGeneration : Bool
  hasAnalyticsDashboard : Bool
  hasClientPortal : Bool
  hasTeamCollaboration : Bool
  hasCustomBranding : Bool
deriving Repr, DecidableEq

/-- The static `PLAN_LIMITS` table; an unknown plan key yields `none`
(reading a limit off it would be a TypeError in the source). -/
def PLAN_LIMITS (plan : String) : Option PlanLimits :=
  if plan == "free" then
    some ⟨some 3, some 5, some 5, false, false, false, false, false, false, false, false⟩
  else if plan == "premium" then
    some ⟨none, none, none, true, true, true, true, true, true, false, false⟩
  else if plan == "enterprise" then
    some ⟨none, none, none, true, true, true, true, true, true, true, true⟩
  else none

/-- The boolean features `requireFeature` can be instantiated with. -/
inductive Feature
  | advancedMeasurements
  | professionalPatternDesigner
  | calendarScheduling
  | invoiceGeneration
  | analyticsDashboard
  | clientPortal
  | teamCollaboration
  | customBranding
deriving Repr, DecidableEq

def PlanLimits.getFeature (l : PlanLimits) : Feature → Bool
  | .advancedMeasurements => l.hasAdvancedMeasurements
  | .professionalPatternDesigner => l.hasProfessionalPatternDesigner
  | .calendarScheduling => l.hasCalendarScheduling
  | .invoiceGeneration => l.hasInvoiceGeneration
  | .analyticsDashboard => l.hasAnalyticsDashboard
  | .clientPortal => l.hasClientPortal
  | .teamCollaboration => l.hasTeamCollaboration
  | .customBranding => l.hasCustomBranding

/-- Evaluates `count >= limit` with a possibly-unbounded (`Infinity`) ceiling. -/
def atOrAboveLimit (count : Nat) : Option Nat → Bool
  | some m => m ≤ count
  | none => false

/-- Outcome of an entitlement middleware: pass through, reject via
`next(error)`, or crash on an out-of-table plan key. -/
inductive GateResult
  | pass
  | err (e : ApiErr)
  | crash
deriving Repr, DecidableEq

/-- Embeds `requireFeature(feature)`: inactive subscriptions are rejected with
`SUBSCRIPTION_INACTIVE` before any plan/feature lookup; plans lacking the
feature are rejected with `FEATURE_NOT_AVAILABLE`. -/
def requireFeature (feature : Feature) (db : DB) (userId : Nat) : GateResult :=
  match db.findUserById userId with
  | none => .err (ApiErr.notFound "User not found" "USER_NOT_FOUND")
  | some user =>
    if !user.isSubActive then
      .err (ApiErr.forbidden "Subscription is inactive. Please renew or upgrade." "SUBSCRIPTION_INACTIVE")
    else
      match PLAN_LIMITS user.plan with
      | none => .crash
      | some limits =>
        if !(limits.getFeature feature) then
          .err (ApiErr.forbidden "Feature requires a higher plan." "FEATURE_NOT_AVAILABLE")
        else .pass

/-- Embeds `checkClientLimit`: compares the user's client count against the plan's
`maxClients` ceiling.  `isSubActive` is not consulted. -/
def checkClientLimit (db : DB) (userId : Nat) (clientCount : Nat) : GateResult :=
  match db.findUserById userId with
  | none => .err (ApiErr.notFound "User not found" "USER_NOT_FOUND")
  | some user =>
    match PLAN_LIMITS user.plan with
    | none => .crash
    | some limits =>
      if atOrAboveLimit clientCount limits.maxClients then
        .err (ApiErr.forbidden "You have reached the maximum number of clients for your plan. Upgrade to add more." "PLAN_CLIENT_LIMIT_REACHED")
      else .pass

/-- Embeds `checkAIGenerationLimit`: compares `user.aiGenerationsThisMonth`
against the plan's monthly AI ceiling.  `isSubActive` is not consulted. -/
def checkAIGenerationLimit (db : DB) (userId : Nat) : GateResult :=
  match db.findUserById userId with
  | none => .err (ApiErr.notFound "User not found" "USER_NOT_FOUND")
  | some user =>
    match PLAN_LIMITS user.plan with
    | none => .crash
    | some limits =>
      if atOrAboveLimit user.aiGenerationsThisMonth limits.maxAIGenerationsPerMonth then
        .err (ApiErr.forbidden "You have reached the maximum AI generations for this month. Upgrade or wait for reset." "PLAN_AI_LIMIT_REACHED")
      else .pass

/-! ## Flutterwave provider helpers (`flutterwave.config.js`) -/

/-- Embeds `verifyWebhookSignature(req)`: the `verif-hash` header must equal the
configured `FLW_WEBHOOK_SECRET`; a missing secret is a 500, a missing,
empty or mismatched header a 401.  Returns the thrown `ApiError`, if any. -/
def verifyWebhookSignature (sigHeader : Option String) (secret : Option String) : Option ApiErr :=
  match secret with
  | none =>
    some (ApiErr.internalServerError "Webhook secret not configured." "FLW_WEBHOOK_SECRET_MISSING")
  | some s =>
    match sigHeader with
    | none => some (ApiErr.unauthorized "Invalid webhook signature." "FLW_WEBHOOK_INVALID_SIG")
    | some h =>
      if h == "" || h != s then
        some (ApiErr.unauthorized "Invalid webhook signature." "FLW_WEBHOOK_INVALID_SIG")
      else none

/-- The env-derived Flutterwave plan id table (`FLW_PLAN_PREMIUM_ID` /
`FLW_PLAN_ENTERPRISE_ID`, defaulting to the empty string when unset). -/
structure FlwConfig where
  premiumPlanId : String
  enterprisePlanId : String
deriving Repr, DecidableEq

/-- Embeds `flutterwavePlanIds[planKey]`; `none` is the JavaScript `undefined` for
a key outside the table. -/
def flutterwavePlanIds (cfg : FlwConfig) (planKey : String) : Option String :=
  if planKey == "premium" then some cfg.premiumPlanId
  else if planKey == "enterprise" then some cfg.enterprisePlanId
  else none

/-- The provider side of one `initializeSubscriptionPayment` call: the
generated transaction reference and `flw.Transaction.initialize`'s
response. -/
structure FlwInitEnv where
  txRef : String
  initStatus : String
  initLink : String
deriving Repr, DecidableEq

/-- Embeds `initializeSubscriptionPayment`: a missing or falsy (empty) payment
plan id is the client-facing 400 `FLW_PLAN_MISSING`; a non-success
initialize response is the 500 `FLW_INIT_FAILED`; otherwise the
transaction reference and hosted-payment link are returned. -/
def initializeSubscriptionPayment (cfg : FlwConfig) (env : FlwInitEnv) (planKey : String) :
    Except ApiErr (String × String) :=
  match flutterwavePlanIds cfg planKey with
  | none => .error (ApiErr.badRequest "Invalid or missing Flutterwave payment plan." "FLW_PLAN_MISSING")
  | some p =>
    if p == "" then
      .error (ApiErr.badRequest "Invalid or missing Flutterwave payment plan." "FLW_PLAN_MISSING")
    else if env.initStatus != "success" then
      .error (ApiErr.internalServerError "Failed to initialize Flutterwave payment." "FLW_INIT_FAILED")
    else
      .ok (env.txRef, env.initLink)

/-! ## Webhook routers -/

/-- A webhook route's observable outcome: the resulting store, the HTTP
status answered (`none` when the route never responds because an unhandled
rejection escaped), and whether the event handler was invoked. -/
structure RouteOutcome where
  db : DB
  httpStatus : Option Nat
  handlerRan : Bool
deriving Repr, DecidableEq

/-- The Flutterwave webhook route: verify the shared-secret signature (any
verification throw is answered 401 and the handler is never invoked), then
run the event handler, answering 200 on success and 500 on a processing
error.  The handler is a parameter because the Flutterwave-era service is
not part of this snapshot. -/
def flutterwaveWebhookRoute (handler : DB → Except String DB) (db : DB)
    (sigHeader : Option String) (secret : Option String) : RouteOutcome :=
  match verifyWebhookSignature sigHeader secret with
  | some _ => ⟨db, some 401, false⟩
  | none =>
    match handler db with
    | .ok db1 => ⟨db1, some 200, true⟩
    | .error _ => ⟨db, some 500, true⟩

/-- The Stripe webhook route: `stripe.webhooks.constructEvent` (signature
verification and parsing, external to this snapshot) either throws —
answered 400, nothing processed — or yields the event, which is handled
with no surrounding try/catch, so a handler throw escapes unanswered. -/
def stripeWebhookRoute (db : DB) (constructResult : Except String StripeEvent) : RouteOutcome :=
  match constructResult with
  | .error _ => ⟨db, some 400, false⟩
  | .ok event =>
    match handleStripeWebhook db event with
    | .ok db1 => ⟨db1, some 200, true⟩
    | .error _ => ⟨db, none, true⟩

/-! ## Callback verification (Flutterwave redirect path) -/

/-- The provider's answer to `verifyTransaction(tx_ref)`: the verified
transaction status and the checkout metadata it carries. -/
structure FlwVerifyData where
  status : String
  metaUserId : Option Nat
  metaPlanId : Option String
deriving Repr, DecidableEq

/-- The JSON body answered by the callback verifier. -/
structure CallbackResult where
  success : Bool
  statusCode : Nat
deriving Repr, DecidableEq

/-- Modelled from the spec: the Plan Catalog lookup
`planId → (amount, billingIntervalDays)` of the Flutterwave-era service,
which is not under `src/`.  Paid plans bill in 30-day periods (the premium
interval of the spec's scenario); unknown plans are absent. -/
structure PlanMeta where
  amount : Nat
  billingIntervalDays : Nat
deriving Repr, DecidableEq

/-- Modelled from the spec: the catalog rows for the paid plans. -/
def catalogLookup (planId : String) : Option PlanMeta :=
  if planId == "premium" then some ⟨25, 30⟩
  else if planId == "enterprise" then some ⟨75, 30⟩
  else none

/-- Modelled from the spec: `subscriptionService.verifyAndActivateFromCallback`
of the Flutterwave-era service, which is not under `src/` (only its
controller and the provider helper `verifyTransaction` are).  Per §4.4 the
redirect's own `status` is ignored: the provider's verification result
`verif` is the sole source of truth.  A non-successful verified status is
the soft `success:false` answer with no state change; a successful one
locates the pending record by transaction reference, falls back to the
verification metadata, fails with `NotFound` when neither correlates, and
otherwise applies the §4.3 activation transition (period from the catalog,
record upserted `active`, user re-pointed with `isSubActive:true`). -/
def verifyAndActivateFromCallback (db : DB) (now : Int) (verif : FlwVerifyData)
    (txRef : Option String) : Except ApiErr (DB × CallbackResult) :=
  if verif.status != "successful" then
    .ok (db, ⟨false, 200⟩)
  else
    let byRef : Option SubRecord :=
      match txRef with
      | some r => db.subs.find? (fun s => s.flwTxRef == some r)
      | none => none
    let correlated : Option (Nat × String) :=
      match byRef with
      | some sub => some (sub.userId, sub.planId)
      | none =>
        match verif.metaUserId, verif.metaPlanId with
        | some uid, some planId => some (uid, planId)
        | _, _ => none
    match correlated with
    | none => .error (ApiErr.notFound "Pending subscription not found." "PENDING_SUBSCRIPTION_NOT_FOUND")
    | some (uid, planId) =>
      match catalogLookup planId with
      | none => .error (ApiErr.badRequest "Invalid plan." "INVALID_PLAN")
      | some meta =>
        let setData : SubRecord → SubRecord := fun r =>
          { r with userId := uid, planId := planId, status := "active",
                   startDate := some now,
                   dueDate := some (now + meta.billingIntervalDays * 86400000),
                   flwTxRef := txRef }
        let res := db.upsertSubByUserId uid setData
        let db2 := res.1.updateUserById uid (fun u =>
          { u with plan := planId, isSubActive := true, subscriptionId := some res.2.id })
        .ok (db2, ⟨true, 200⟩)

/-- The redirect query consumed by the `verifyCallback` controller. -/
structure CallbackQuery where
  status : Option String
  txRef : Option String
  transactionId : Option String
deriving Repr, DecidableEq

/-- The `verifyCallback` controller (`subscription.controller`, Flutterwave
revision, under `src/`): requires `status` and at least one of
`tx_ref`/`transaction_id`, then delegates to the service; the redirect's
`status` value is passed along but the service never reads it. -/
def verifyCallback (db : DB) (now : Int) (verif : FlwVerifyData) (q : CallbackQuery) :
    Except ApiErr (DB × CallbackResult) :=
  if q.status == none || (q.txRef == none && q.transactionId == none) then
    .error ⟨400, "Missing required query params: status and tx_ref or transaction_id", none⟩
  else
    verifyAndActivateFromCallback db now verif q.txRef

/-! ## Generic lemmas about the update-first-match primitive -/

theorem updateFirstWhere_of_find?_eq_none {α : Type} (p : α → Bool) (f : α → α) (l : List α)
    (h : l.find? p = none) : updateFirstWhere p f l = l := by
  induction l with
  | nil => rfl
  | cons a t ih =>
    rw [List.find?_cons] at h
    cases hpa : p a with
    | true => rw [hpa] at h; exact absurd h (by simp)
    | false =>
      rw [hpa] at h
      simp [updateFirstWhere, hpa, ih h]

theorem find?_updateFirstWhere_self {α : Type} (p : α → Bool) (f : α → α) (l : List α) (x : α)
    (h : l.find? p = some x) (hp : p (f x) = true) :
    (updateFirstWhere p f l).find? p = some (f x) := by
  induction l with
  | nil => simp at h
  | cons a t ih =>
    rw [List.find?_cons] at h
    cases hpa : p a with
    | true =>
      rw [hpa] at h
      simp only [Option.some.injEq] at h
      subst h
      simp [updateFirstWhere, hpa, List.find?_cons, hp]
    | false =>
      rw [hpa] at h
      simp [updateFirstWhere, hpa, List.find?_cons, ih h]

theorem find?_updateFirstWhere_other {α : Type} (p q : α → Bool) (f : α → α) (l : List α) (x : α)
    (h1 : l.find? p = some x) (h2 : l.find? q = some x) (hf : p (f x) = true) :
    (updateFirstWhere q f l).find? p = some (f x) := by
  induction l with
  | nil => simp at h1
  | cons a t ih =>
    rw [List.find?_cons] at h1 h2
    cases hqa : q a with
    | true =>
      rw [hqa] at h2
      simp only [Option.some.injEq] at h2
      subst h2
      simp [updateFirstWhere, hqa, List.find?_cons, hf]
    | false =>
      rw [hqa] at h2
      cases hpa : p a with
      | true =>
        rw [hpa] at h1
        simp only [Option.some.injEq] at h1
        subst h1
        exact absurd (List.find?_some h2) (by simp [hqa])
      | false =>
        rw [hpa] at h1
        simp [updateFirstWhere, hqa, List.find?_cons, hpa, ih h1 h2]

theorem updateFirstWhere_idem {α : Type} (p : α → Bool) (f : α → α) (l : List α)
    (hp : ∀ a, p a = true → p (f a) = true) (hff : ∀ a, f (f a) = f a) :
    updateFirstWhere p f (updateFirstWhere p f l) = updateFirstWhere p f l := by
  induction l with
  | nil => rfl
  | cons a t ih =>
    cases hpa : p a with
    | true =>
      simp [updateFirstWhere, hpa, hp a hpa, hff a]
    | false =>
      simp [updateFirstWhere, hpa, ih]

theorem countP_updateFirstWhere {α : Type} (p q : α → Bool) (f : α → α) (l : List α)
    (hq : ∀ a, q (f a) = q a) :
    (updateFirstWhere p f l).countP q = l.countP q := by
  induction l with
  | nil => rfl
  | cons a t ih =>
    cases hpa : p a with
    | true => simp [updateFirstWhere, hpa, List.countP_cons, hq a]
    | false => simp [updateFirstWhere, hpa, List.countP_cons, ih]

theorem find?_append_singleton {α : Type} (p : α → Bool) (l : List α) (x : α)
    (h : l.find? p = none) (hp : p x = true) :
    (l ++ [x]).find? p = some x := by
  induction l with
  | nil => simp [List.find?_cons, hp]
  | cons a t ih =>
    rw [List.find?_cons] at h
    cases hpa : p a with
    | true => rw [hpa] at h; exact absurd h (by simp)
    | false =>
      rw [hpa] at h
      simp [List.cons_append, List.find?_cons, hpa, ih h]

theorem countP_append_singleton {α : Type} (q : α → Bool) (l : List α) (x : α) :
    (l ++ [x]).countP q = l.countP q + (if q x then 1 else 0) := by
  induction l with
  | nil => simp [List.countP_cons, List.countP_nil]
  | cons a t ih =>
    simp only [List.cons_append, List.countP_cons, ih]
    split <;> omega

/-- Updating a user found by id yields the updated user at the same lookup,
provided the update preserves the id. -/
theorem DB.findUserById_updateUserById_self (db : DB) (uid : Nat) (f : UserRec → UserRec)
    (u : UserRec) (hu : db.findUserById uid = some u) (hid : (f u).id = u.id) :
    (db.updateUserById uid f).findUserById uid = some (f u) := by
  have hp : ((f u).id == uid) = true := by
    have := List.find?_some hu
    simp only [hid]
    exact this
  exact find?_updateFirstWhere_self _ f db.users u hu hp

theorem upsertSubByUserId_users (db : DB) (uid : Nat) (f : SubRecord → SubRecord) :
    (db.upsertSubByUserId uid f).1.users = db.users := by
  unfold DB.upsertSubByUserId
  cases db.findSubByUserId uid <;> rfl

theorem upsertSubByUserId_snd (db : DB) (uid : Nat) (f : SubRecord → SubRecord) :
    ∃ x, (db.upsertSubByUserId uid f).2 = f x := by
  unfold DB.upsertSubByUserId
  cases db.findSubByUserId uid with
  | none => exact ⟨_, rfl⟩
  | some ex => exact ⟨ex, rfl⟩

theorem upsertSubByUserId_snd_field (db : DB) (uid : Nat) (f : SubRecord → SubRecord)
    (c : String) (hf : ∀ x, (f x).status = c) :
    (db.upsertSubByUserId uid f).2.status = c := by
  obtain ⟨x, hx⟩ := upsertSubByUserId_snd db uid f
  rw [hx]
  exact hf x

/-- The upserted record is itself the user's record found afterwards,
provided the update pins `userId`. -/
theorem upsertSubByUserId_find (db : DB) (uid : Nat) (f : SubRecord → SubRecord)
    (hf : ∀ x, (f x).userId = uid) :
    (db.upsertSubByUserId uid f).1.findSubByUserId uid = some (db.upsertSubByUserId uid f).2 := by
  unfold DB.upsertSubByUserId
  cases hex : db.findSubByUserId uid with
  | some ex =>
    simp only []
    exact find?_updateFirstWhere_self _ f db.subs ex hex (by rw [hf ex]; simp)
  | none =>
    simp only []
    unfold DB.findSubByUserId at hex ⊢
    exact find?_append_singleton _ db.subs _ hex (by rw [hf]; simp)

/-- Any successful paid-path return of `subscribe` hands back the upserted
record with `status = "active"` and leaves the user re-pointed with
`isSubActive = true`. -/
theorem finalizePaidSubscription_ok_spec (db : DB) (uid : Nat) (planId cust : String)
    (s : StripeSubObj) (pm : Option String) (calls : List StripeCall) (r : SubRecord)
    (u0 : UserRec) (hu : db.findUserById uid = some u0)
    (h : (finalizePaidSubscription db uid planId cust s pm calls).result = .ok (.paidPlan r)) :
    r.status = "active" ∧
    (finalizePaidSubscription db uid planId cust s pm calls).db.findUserById uid =
      some { u0 with plan := planId, isSubActive := true, subscriptionId := some r.id } := by
  have husers : ∀ g : SubRecord → SubRecord,
      ((db.upsertSubByUserId uid g).1).findUserById uid = some u0 := by
    intro g
    unfold DB.findUserById
    rw [upsertSubByUserId_users]
    exact hu
  by_cases hv : (subPlanIdValid planId && subStatusValid "active") = true
  · unfold finalizePaidSubscription at h ⊢
    rw [if_pos hv] at h ⊢
    simp only [Except.ok.injEq] at h
    have hr := SubscribeOk.paidPlan.inj h
    constructor
    · rw [← hr]
      exact upsertSubByUserId_snd_field db uid _ _ (fun x => rfl)
    · simp only []
      rw [hr]
      exact DB.findUserById_updateUserById_self _ uid _ u0 (husers _) rfl
  · unfold finalizePaidSubscription at h
    rw [if_neg hv] at h
    simp at h

/-! ## Claim theorems -/

/-- Claim C1 (amended): whenever `subscribe` returns successfully for a paid
plan, the upserted Subscription Record already has `status = "active"` and
the user's `isSubActive` flag is already `true` — Stripe is charged
synchronously through the attached payment method, so there is no
`pending` state and no withheld access awaiting an activation event. -/
theorem C1_subscribe_paid_grants_immediate_access (db : DB) (env : StripeEnv) (uid : Nat)
    (planId : String) (pm : Option String) (r : SubRecord) (u0 : UserRec)
    (hu : db.findUserById uid = some u0)
    (hres : (subscribe db env uid planId pm).result = .ok (.paidPlan r)) :
    r.status = "active" ∧
    (subscribe db env uid planId pm).db.findUserById uid =
      some { u0 with plan := planId, isSubActive := true, subscriptionId := some r.id } := by
  unfold subscribe at hres ⊢
  rw [hu] at hres ⊢
  by_cases hc : ((planId != "free") && (pm == none)) = true
  · simp only [if_pos hc] at hres
    simp at hres
  · simp only [if_neg hc] at hres ⊢
    cases hex : db.findSubByUserId uid with
    | some ex =>
      simp only [hex] at hres ⊢
      by_cases hsid : ex.stripeSubscriptionId.isSome = true
      · simp only [if_pos hsid] at hres ⊢
        cases henv : updateStripeSubscription env.updateResult with
        | error e =>
          simp only [henv] at hres
          simp at hres
        | ok s =>
          simp only [henv] at hres ⊢
          exact finalizePaidSubscription_ok_spec db uid planId env.customerId s pm _ r u0 hu hres
      · simp only [if_neg hsid] at hres ⊢
        by_cases hpaid : (planId != "free") = true
        · simp only [if_pos hpaid] at hres ⊢
          cases henv : createStripeSubscription env.createResult with
          | error e =>
            simp only [henv] at hres
            simp at hres
          | ok s =>
            simp only [henv] at hres ⊢
            exact finalizePaidSubscription_ok_spec db uid planId env.customerId s pm _ r u0 hu hres
        · simp only [if_neg hpaid] at hres
          simp at hres
    | none =>
      simp only [hex] at hres ⊢
      by_cases hpaid : (planId != "free") = true
      · simp only [if_pos hpaid] at hres ⊢
        cases henv : createStripeSubscription env.createResult with
        | error e =>
          simp only [henv] at hres
          simp at hres
        | ok s =>
          simp only [henv] at hres ⊢
          exact finalizePaidSubscription_ok_spec db uid planId env.customerId s pm _ r u0 hu hres
      · simp only [if_neg hpaid] at hres
        simp at hres

/-- Claim C1 (counterexample): at a concrete paid checkout the record upserted
by `subscribe` has `status = "active"` (not `"pending"`) and the user ends
with `isSubActive = true` (not withheld), refuting the claim that access is
withheld with a pending record until an activation event. -/
theorem C1_counterexample :
    (subscribe ⟨[⟨1, "a@b.c", "free", true, none, none, 0⟩], [], 10⟩
        ⟨"cus_1", .error ⟨"unused", "unused"⟩,
          .ok ⟨"sub_1", "active", "cus_1", "price_1RxqOcRpcgBDjLSAxTUdiLcG", 100, 200⟩⟩
        1 "premium" (some "pm_1")).result =
      .ok (.paidPlan ⟨10, 1, "premium", "active", some "cus_1", some "sub_1",
        some 100000, some 200000, some "pm_1", none⟩) ∧
    (subscribe ⟨[⟨1, "a@b.c", "free", true, none, none, 0⟩], [], 10⟩
        ⟨"cus_1", .error ⟨"unused", "unused"⟩,
          .ok ⟨"sub_1", "active", "cus_1", "price_1RxqOcRpcgBDjLSAxTUdiLcG", 100, 200⟩⟩
        1 "premium" (some "pm_1")).db.findUserById 1 =
      some ⟨1, "a@b.c", "premium", true, some 10, none, 0⟩ ∧
    "active" ≠ "pending" := by
  refine ⟨rfl, rfl, by decide⟩

/-- Witness for C1 (amended) at the same concrete paid checkout. -/
theorem C1_subscribe_paid_grants_immediate_access_witness :
    (subscribe ⟨[⟨1, "a@b.c", "free", true, none, none, 0⟩], [], 10⟩
        ⟨"cus_1", .error ⟨"unused", "unused"⟩,
          .ok ⟨"sub_1", "active", "cus_1", "price_1RxqOcRpcgBDjLSAxTUdiLcG", 100, 200⟩⟩
        1 "premium" (some "pm_1")).db.findUserById 1 =
      some ⟨1, "a@b.c", "premium", true, some 10, none, 0⟩ :=
  (C1_subscribe_paid_grants_immediate_access
    ⟨[⟨1, "a@b.c", "free", true, none, none, 0⟩], [], 10⟩
    ⟨"cus_1", .error ⟨"unused", "unused"⟩,
      .ok ⟨"sub_1", "active", "cus_1", "price_1RxqOcRpcgBDjLSAxTUdiLcG", 100, 200⟩⟩
    1 "premium" (some "pm_1")
    ⟨10, 1, "premium", "active", some "cus_1", some "sub_1",
      some 100000, some 200000, some "pm_1", none⟩
    ⟨1, "a@b.c", "free", true, none, none, 0⟩ rfl rfl).2

/-- Claim C2 (counterexample): `subscribe(user, "free")` for a user whose
existing record carries a `stripeSubscriptionId` routes through the
provider-update path: the provider is called, the record survives, and the
request even fails with the 500 `SUBSCRIBE_FAILED` (the upsert writes
`planId: "free"`, which the schema's enum rejects) — refuting "plan=free,
isSubActive=true, no remaining record, no provider call". -/
theorem C2_counterexample :
    (subscribe
        ⟨[⟨1, "a@b.c", "premium", true, some 10, none, 0⟩],
          [⟨10, 1, "premium", "active", some "cus_1", some "sub_1", some 0, some 1000,
            some "pm_1", none⟩], 11⟩
        ⟨"cus_1", .ok ⟨"sub_1", "active", "cus_1", "price_1RxqOcRpcgBDjLSAxTUdiLcG", 100, 200⟩,
          .error ⟨"unused", "unused"⟩⟩
        1 "free" none).result =
      .error ⟨500, "Failed to subscribe to the plan.", some "SUBSCRIBE_FAILED"⟩ ∧
    (subscribe
        ⟨[⟨1, "a@b.c", "premium", true, some 10, none, 0⟩],
          [⟨10, 1, "premium", "active", some "cus_1", some "sub_1", some 0, some 1000,
            some "pm_1", none⟩], 11⟩
        ⟨"cus_1", .ok ⟨"sub_1", "active", "cus_1", "price_1RxqOcRpcgBDjLSAxTUdiLcG", 100, 200⟩,
          .error ⟨"unused", "unused"⟩⟩
        1 "free" none).db.subs ≠ [] ∧
    (subscribe
        ⟨[⟨1, "a@b.c", "premium", true, some 10, none, 0⟩],
          [⟨10, 1, "premium", "active", some "cus_1", some "sub_1", some 0, some 1000,
            some "pm_1", none⟩], 11⟩
        ⟨"cus_1", .ok ⟨"sub_1", "active", "cus_1", "price_1RxqOcRpcgBDjLSAxTUdiLcG", 100, 200⟩,
          .error ⟨"unused", "unused"⟩⟩
        1 "free" none).calls = [.findOrCreateCustomer, .updateSubscription] := by
  refine ⟨rfl, by decide, rfl⟩

/-- Claim C2 (amended): for a user whose existing record (if any) carries no
provider subscription id, `subscribe(user, "free")` succeeds synchronously
with `plan = "free"`, `isSubActive = true`, `subscriptionId = null` — but
the Stripe customer lookup is still performed (one provider call) and any
existing Subscription Record is left in place, never deleted (the delete
branch requires the provider subscription id to be simultaneously present
and absent). -/
theorem C2_free_downgrade_keeps_records_and_calls_provider (db : DB) (env : StripeEnv)
    (uid : Nat) (u0 : UserRec)
    (hu : db.findUserById uid = some u0)
    (hnosid : ∀ ex, db.findSubByUserId uid = some ex → ex.stripeSubscriptionId = none) :
    (subscribe db env uid "free" none).result = .ok .freePlan ∧
    (subscribe db env uid "free" none).calls = [.findOrCreateCustomer] ∧
    (subscribe db env uid "free" none).db.subs = db.subs ∧
    (subscribe db env uid "free" none).db.findUserById uid =
      some { u0 with plan := "free", isSubActive := true, subscriptionId := none } := by
  unfold subscribe
  rw [hu]
  rw [if_neg (by decide : ¬((("free" : String) != "free") && ((none : Option String) == none)) = true)]
  cases hex : db.findSubByUserId uid with
  | some ex =>
    have hsid : ex.stripeSubscriptionId.isSome = false := by
      rw [hnosid ex hex]
      rfl
    simp only [hex, hsid]
    refine ⟨rfl, rfl, rfl, ?_⟩
    exact DB.findUserById_updateUserById_self db uid _ u0 hu rfl
  | none =>
    simp only [hex]
    rw [if_neg (by decide : ¬(("free" : String) != "free") = true)]
    refine ⟨rfl, rfl, rfl, ?_⟩
    exact DB.findUserById_updateUserById_self db uid _ u0 hu rfl

/-- Witness for C2 (amended) at a concrete user holding a record without a
provider subscription id. -/
theorem C2_free_downgrade_keeps_records_and_calls_provider_witness :
    (subscribe
        ⟨[⟨1, "a@b.c", "premium", true, some 10, none, 0⟩],
          [⟨10, 1, "premium", "active", none, none, some 0, some 1000, none, none⟩], 11⟩
        ⟨"cus_1", .error ⟨"unused", "unused"⟩, .error ⟨"unused", "unused"⟩⟩
        1 "free" none).calls = [.findOrCreateCustomer] ∧
    (subscribe
        ⟨[⟨1, "a@b.c", "premium", true, some 10, none, 0⟩],
          [⟨10, 1, "premium", "active", none, none, some 0, some 1000, none, none⟩], 11⟩
        ⟨"cus_1", .error ⟨"unused", "unused"⟩, .error ⟨"unused", "unused"⟩⟩
        1 "free" none).db.subs =
      [⟨10, 1, "premium", "active", none, none, some 0, some 1000, none, none⟩] :=
  have h := C2_free_downgrade_keeps_records_and_calls_provider
    ⟨[⟨1, "a@b.c", "premium", true, some 10, none, 0⟩],
      [⟨10, 1, "premium", "active", none, none, some 0, some 1000, none, none⟩], 11⟩
    ⟨"cus_1", .error ⟨"unused", "unused"⟩, .error ⟨"unused", "unused"⟩⟩
    1 ⟨1, "a@b.c", "premium", true, some 10, none, 0⟩ rfl
    (fun ex hex => by
      simp only [DB.findSubByUserId, List.find?] at hex
      cases hex
      rfl)
  ⟨h.2.1, h.2.2.1⟩

/-- Claim C8 (counterexample): the Stripe `subscribe` path performs no
catalog validation: a paid plan absent from the catalog ("gold") surfaces
as the `stripe.config.js` wrapper's untyped 500 "Failed to create Stripe
subscription." error, carrying no machine code, once the provider call
with the undefined price fails — not as a client-facing invalid-plan
failure. -/
theorem C8_counterexample :
    (subscribe ⟨[⟨1, "a@b.c", "free", true, none, none, 0⟩], [], 0⟩
        ⟨"cus_1", .error ⟨"unused", "unused"⟩,
          .error ⟨"StripeInvalidRequestError", "Invalid price"⟩⟩
        1 "gold" (some "pm_1")).result =
      .error ⟨500, "Failed to create Stripe subscription.", none⟩ ∧
    stripePriceIds "gold" = none ∧
    (500 : Nat) ≠ 400 := by
  refine ⟨rfl, rfl, by decide⟩

/-- Claim C8 (amended): a paid plan absent from the catalog fails checkout
initiation as a client-facing 400 `FLW_PLAN_MISSING` on the Flutterwave
path; on the Stripe path — which never consults its catalog — the provider
call with the undefined price fails, the `stripe.config.js` wrapper
converts that failure into the untyped 500
"Failed to create Stripe subscription." `ApiError` with no machine code,
and `subscribe`'s catch rethrows it unchanged. -/
theorem C8_unknown_plan_split_behavior (cfg : FlwConfig) (fenv : FlwInitEnv) (planKey : String)
    (db : DB) (env : StripeEnv) (uid : Nat) (u0 : UserRec) (pm planId : String) (e : StripeErr)
    (hkey : flutterwavePlanIds cfg planKey = none)
    (hu : db.findUserById uid = some u0)
    (hnosub : db.findSubByUserId uid = none)
    (hpaid : planId ≠ "free")
    (_hcat : stripePriceIds planId = none)
    (hcreate : env.createResult = .error e) :
    initializeSubscriptionPayment cfg fenv planKey =
      .error (ApiErr.badRequest "Invalid or missing Flutterwave payment plan." "FLW_PLAN_MISSING") ∧
    (subscribe db env uid planId (some pm)).result =
      .error ⟨500, "Failed to create Stripe subscription.", none⟩ := by
  constructor
  · unfold initializeSubscriptionPayment
    rw [hkey]
  · unfold subscribe
    rw [hu]
    rw [if_neg (by simp : ¬((planId != "free") && ((some pm : Option String) == none)) = true)]
    simp only [hnosub]
    rw [if_pos (by simp [hpaid] : (planId != "free") = true)]
    rw [hcreate]
    rfl

/-- Witness for C8 (amended) at a concrete unknown plan on both provider
paths. -/
theorem C8_unknown_plan_split_behavior_witness :
    initializeSubscriptionPayment ⟨"FLWPLN_p", "FLWPLN_e"⟩ ⟨"SM_1", "success", "link"⟩ "gold" =
      .error (ApiErr.badRequest "Invalid or missing Flutterwave payment plan." "FLW_PLAN_MISSING") ∧
    (subscribe ⟨[⟨1, "a@b.c", "free", true, none, none, 0⟩], [], 0⟩
        ⟨"cus_1", .error ⟨"unused", "unused"⟩,
          .error ⟨"StripeInvalidRequestError", "Invalid price"⟩⟩
        1 "gold" (some "pm_1")).result =
      .error ⟨500, "Failed to create Stripe subscription.", none⟩ :=
  C8_unknown_plan_split_behavior ⟨"FLWPLN_p", "FLWPLN_e"⟩ ⟨"SM_1", "success", "link"⟩ "gold"
    ⟨[⟨1, "a@b.c", "free", true, none, none, 0⟩], [], 0⟩
    ⟨"cus_1", .error ⟨"unused", "unused"⟩,
      .error ⟨"StripeInvalidRequestError", "Invalid price"⟩⟩
    1 ⟨1, "a@b.c", "free", true, none, none, 0⟩ "pm_1" "gold"
    ⟨"StripeInvalidRequestError", "Invalid price"⟩
    rfl rfl rfl (by decide) rfl rfl

/-- Claim C4: the callback verifier never trusts the redirect's own `status`
query parameter: even when the request carries `status=successful`, if the
provider's own verification of the referenced transaction reports it as not
successful, the call returns `success:false` and no user or subscription
state is mutated. -/
theorem C4_callback_never_trusts_query_status (db : DB) (now : Int) (verif : FlwVerifyData)
    (q : CallbackQuery) (r : String)
    (hforged : q.status = some "successful")
    (href : q.txRef = some r)
    (hprov : verif.status ≠ "successful") :
    verifyCallback db now verif q = .ok (db, ⟨false, 200⟩) := by
  unfold verifyCallback verifyAndActivateFromCallback
  rw [hforged, href]
  simp [hprov]

/-- Witness for C4 at a concrete forged redirect whose provider-side
verification reports "failed". -/
theorem C4_callback_never_trusts_query_status_witness :
    verifyCallback ⟨[], [], 0⟩ 0 ⟨"failed", none, none⟩ ⟨some "successful", some "SM_1", none⟩ =
      .ok (⟨[], [], 0⟩, ⟨false, 200⟩) :=
  C4_callback_never_trusts_query_status _ 0 _ _ "SM_1" rfl rfl (by decide)

/-- Claim C6 (counterexample): a Stripe webhook request whose signature
verification fails is rejected with HTTP 400, which is not an
Unauthorized-class (401/403) status, so the claim that every bad-signature
webhook is rejected with an Unauthorized-class error fails on the Stripe
router (the event is still not processed). -/
theorem C6_counterexample :
    stripeWebhookRoute ⟨[⟨1, "a@b.c", "free", true, none, none, 0⟩], [], 0⟩
        (.error "Webhook signature verification failed.") =
      ⟨⟨[⟨1, "a@b.c", "free", true, none, none, 0⟩], [], 0⟩, some 400, false⟩ ∧
    ¬((400 : Nat) = 401 ∨ (400 : Nat) = 403) := by
  constructor
  · rfl
  · decide

/-- Claim C6 (amended): the Flutterwave webhook route rejects a missing,
empty or mismatched `verif-hash` header with HTTP 401 Unauthorized, without
running the event handler and without touching the store; the Stripe
webhook route rejects a failed signature construction with HTTP 400, also
without processing or mutation. -/
theorem C6_webhook_signature_rejected_unprocessed :
    (∀ (handler : DB → Except String DB) (db : DB) (sig : Option String) (s : String),
        (sig = none ∨ ∃ h, sig = some h ∧ (h = "" ∨ h ≠ s)) →
        flutterwaveWebhookRoute handler db sig (some s) = ⟨db, some 401, false⟩) ∧
    (∀ (db : DB) (msg : String),
        stripeWebhookRoute db (.error msg) = ⟨db, some 400, false⟩) := by
  constructor
  · intro handler db sig s hsig
    unfold flutterwaveWebhookRoute verifyWebhookSignature
    rcases hsig with h | ⟨h, hh, hcase⟩
    · rw [h]
    · rw [hh]
      rcases hcase with he | hne
      · simp [he]
      · simp [hne]
  · intro db msg
    rfl

/-- Witness for C6 (amended) at a concrete mismatched header and a concrete
failed Stripe signature construction. -/
theorem C6_webhook_signature_rejected_unprocessed_witness :
    flutterwaveWebhookRoute (fun db => .ok db) ⟨[], [], 0⟩ (some "wrong") (some "secret") =
      ⟨⟨[], [], 0⟩, some 401, false⟩ ∧
    stripeWebhookRoute ⟨[], [], 0⟩ (.error "bad signature") = ⟨⟨[], [], 0⟩, some 400, false⟩ :=
  ⟨C6_webhook_signature_rejected_unprocessed.1 _ _ _ "secret"
      (Or.inr ⟨"wrong", rfl, Or.inr (by decide)⟩),
    C6_webhook_signature_rejected_unprocessed.2 _ "bad signature"⟩

/-- Claim C7 (counterexample): a user with `isSubActive = false` on the free
plan and zero clients passes `checkClientLimit` — the usage-limit
middlewares never consult `isSubActive`, so the claim that every
entitlement check fails with `SubscriptionInactive` for an inactive user is
false. -/
theorem C7_counterexample :
    (DB.findUserById ⟨[⟨1, "a@b.c", "free", false, none, none, 0⟩], [], 0⟩ 1).map UserRec.isSubActive =
      some false ∧
    checkClientLimit ⟨[⟨1, "a@b.c", "free", false, none, none, 0⟩], [], 0⟩ 1 0 = .pass := by
  constructor
  · rfl
  · rfl

/-- Claim C7 (amended): when `isSubActive` is false, `requireFeature` fails
with `SUBSCRIPTION_INACTIVE` regardless of the plan or the requested
feature; but the count-based checks (`checkClientLimit`,
`checkAIGenerationLimit`) do not consult `isSubActive` and pass whenever
the count is below the plan's ceiling. -/
theorem C7_only_feature_gate_checks_isSubActive (db : DB) (uid : Nat) (u : UserRec)
    (feature : Feature)
    (hu : db.findUserById uid = some u) (hin : u.isSubActive = false) :
    requireFeature feature db uid =
      .err (ApiErr.forbidden "Subscription is inactive. Please renew or upgrade."
        "SUBSCRIPTION_INACTIVE") ∧
    (∀ (count : Nat) (limits : PlanLimits), PLAN_LIMITS u.plan = some limits →
        atOrAboveLimit count limits.maxClients = false →
        checkClientLimit db uid count = .pass) ∧
    (∀ limits : PlanLimits, PLAN_LIMITS u.plan = some limits →
        atOrAboveLimit u.aiGenerationsThisMonth limits.maxAIGenerationsPerMonth = false →
        checkAIGenerationLimit db uid = .pass) := by
  refine ⟨?_, ?_, ?_⟩
  · simp only [requireFeature, hu]
    rw [hin]
    rfl
  · intro count limits hl hlt
    simp only [checkClientLimit, hu, hl]
    rw [hlt]
    rfl
  · intro limits hl hlt
    simp only [checkAIGenerationLimit, hu, hl]
    rw [hlt]
    rfl

/-- Witness for C7 (amended) at a concrete inactive premium user. -/
theorem C7_only_feature_gate_checks_isSubActive_witness :
    requireFeature .clientPortal ⟨[⟨1, "a@b.c", "premium", false, none, none, 2⟩], [], 0⟩ 1 =
      .err (ApiErr.forbidden "Subscription is inactive. Please renew or upgrade."
        "SUBSCRIPTION_INACTIVE") ∧
    checkClientLimit ⟨[⟨1, "a@b.c", "premium", false, none, none, 2⟩], [], 0⟩ 1 100 = .pass :=
  have h := C7_only_feature_gate_checks_isSubActive
    ⟨[⟨1, "a@b.c", "premium", false, none, none, 2⟩], [], 0⟩ 1
    ⟨1, "a@b.c", "premium", false, none, none, 2⟩ .clientPortal rfl rfl
  ⟨h.1, h.2.1 100 ⟨none, none, none, true, true, true, true, true, true, false, false⟩ rfl rfl⟩

/-- Claim C9: a free-plan user with exactly `maxClients` (3) existing clients
is denied client creation with the plan-limit-reached error, while a
premium or enterprise user with the same count passes, their ceiling being
unbounded; the count 3 is exactly the free plan's `maxClients` entry of
`PLAN_LIMITS`. -/
theorem C9_client_ceiling (db : DB) (uid : Nat) (u : UserRec)
    (hu : db.findUserById uid = some u) :
    (PLAN_LIMITS "free").map PlanLimits.maxClients = some (some 3) ∧
    (u.plan = "free" → checkClientLimit db uid 3 =
      .err (ApiErr.forbidden
        "You have reached the maximum number of clients for your plan. Upgrade to add more."
        "PLAN_CLIENT_LIMIT_REACHED")) ∧
    (u.plan = "premium" → checkClientLimit db uid 3 = .pass) ∧
    (u.plan = "enterprise" → checkClientLimit db uid 3 = .pass) := by
  refine ⟨rfl, ?_, ?_, ?_⟩ <;> intro hplan <;>
    · simp only [checkClientLimit, hu]
      rw [hplan]
      rfl

/-- Witness for C9 at a concrete free user and a concrete premium user,
each with three clients. -/
theorem C9_client_ceiling_witness :
    checkClientLimit ⟨[⟨1, "a@b.c", "free", true, none, none, 0⟩], [], 0⟩ 1 3 =
      .err (ApiErr.forbidden
        "You have reached the maximum number of clients for your plan. Upgrade to add more."
        "PLAN_CLIENT_LIMIT_REACHED") ∧
    checkClientLimit ⟨[⟨2, "d@e.f", "premium", true, none, none, 0⟩], [], 0⟩ 2 3 = .pass :=
  ⟨(C9_client_ceiling ⟨[⟨1, "a@b.c", "free", true, none, none, 0⟩], [], 0⟩ 1
      ⟨1, "a@b.c", "free", true, none, none, 0⟩ rfl).2.1 rfl,
    (C9_client_ceiling ⟨[⟨2, "d@e.f", "premium", true, none, none, 0⟩], [], 0⟩ 2
      ⟨2, "d@e.f", "premium", true, none, none, 0⟩ rfl).2.2.1 rfl⟩

/-- Claim C3: replaying the same `invoice.payment_succeeded` event N >= 1
times for the same transaction/subscription reference leaves the store
exactly as after the first application: still exactly one Subscription
Record for that user, with `status = "active"`, `startDate` untouched and
`dueDate` equal to the value set by the first application — replays advance
nothing and insert nothing. -/
theorem C3_payment_succeeded_replay_idempotent (db : DB) (inv : StripeInvoiceObj)
    (sid : String) (ex : SubRecord) (n : Nat)
    (hn : 1 ≤ n)
    (hs : inv.subscription = some sid)
    (hex : db.findSubByStripeSubId sid = some ex)
    (hone : db.subs.countP (fun r => r.userId == ex.userId) = 1) :
    (stripeStep (.invoicePaymentSucceeded inv))^[n] db =
      stripeStep (.invoicePaymentSucceeded inv) db ∧
    ((stripeStep (.invoicePaymentSucceeded inv))^[n] db).subs.countP
      (fun r => r.userId == ex.userId) = 1 ∧
    ((stripeStep (.invoicePaymentSucceeded inv))^[n] db).findSubByStripeSubId sid =
      some { ex with status := "active", dueDate := some (inv.linePeriodEnd * 1000) } := by
  have hstep : ∀ (d : DB) (x : SubRecord), d.findSubByStripeSubId sid = some x →
      stripeStep (.invoicePaymentSucceeded inv) d =
        ({ d with subs := (updateFirstWhere (fun r => r.stripeSubscriptionId == some sid)
            (fun r => { r with status := "active", dueDate := some (inv.linePeriodEnd * 1000) })
            d.subs)
          } : DB).updateUserById x.userId (fun u => { u with isSubActive := true }) := by
    intro d x hx
    unfold stripeStep handleStripeWebhook
    simp only [hs, hx]
  have h1 := hstep db ex hex
  have hpex := List.find?_some hex
  have hfind1 : (stripeStep (.invoicePaymentSucceeded inv) db).findSubByStripeSubId sid =
      some { ex with status := "active", dueDate := some (inv.linePeriodEnd * 1000) } := by
    rw [h1]
    exact find?_updateFirstWhere_self _ _ db.subs ex hex hpex
  have hfix : stripeStep (.invoicePaymentSucceeded inv)
      (stripeStep (.invoicePaymentSucceeded inv) db) =
      stripeStep (.invoicePaymentSucceeded inv) db := by
    rw [hstep _ _ hfind1]
    rw [h1]
    unfold DB.updateUserById
    simp only []
    congr 1
    · exact updateFirstWhere_idem _ _ _ (fun a ha => ha) (fun a => rfl)
    · exact updateFirstWhere_idem _ _ _ (fun a ha => ha) (fun a => rfl)
  obtain ⟨k, rfl⟩ : ∃ k, n = k + 1 := ⟨n - 1, by omega⟩
  have hiter : (stripeStep (.invoicePaymentSucceeded inv))^[k + 1] db =
      stripeStep (.invoicePaymentSucceeded inv) db := by
    rw [Function.iterate_succ_apply]
    exact Function.iterate_fixed hfix k
  refine ⟨hiter, ?_, ?_⟩
  · rw [hiter, h1]
    unfold DB.updateUserById
    simp only []
    refine Eq.trans (countP_updateFirstWhere _ _ _ _ (fun a => ?_)) hone
    rfl
  · rw [hiter]
    exact hfind1

/-- Witness for C3: a concrete renewal invoice replayed twice. -/
theorem C3_payment_succeeded_replay_idempotent_witness :
    (stripeStep (.invoicePaymentSucceeded ⟨some "sub_1", 2000⟩))^[2]
        ⟨[⟨1, "a@b.c", "premium", true, some 10, some "cus_1", 0⟩],
          [⟨10, 1, "premium", "active", some "cus_1", some "sub_1", some 0, some 1000,
            none, none⟩], 11⟩ =
      stripeStep (.invoicePaymentSucceeded ⟨some "sub_1", 2000⟩)
        ⟨[⟨1, "a@b.c", "premium", true, some 10, some "cus_1", 0⟩],
          [⟨10, 1, "premium", "active", some "cus_1", some "sub_1", some 0, some 1000,
            none, none⟩], 11⟩ ∧
    ((stripeStep (.invoicePaymentSucceeded ⟨some "sub_1", 2000⟩))^[2]
        ⟨[⟨1, "a@b.c", "premium", true, some 10, some "cus_1", 0⟩],
          [⟨10, 1, "premium", "active", some "cus_1", some "sub_1", some 0, some 1000,
            none, none⟩], 11⟩).subs.countP
      (fun r => r.userId == (⟨10, 1, "premium", "active", some "cus_1", some "sub_1",
        some 0, some 1000, none, none⟩ : SubRecord).userId) = 1 ∧
    ((stripeStep (.invoicePaymentSucceeded ⟨some "sub_1", 2000⟩))^[2]
        ⟨[⟨1, "a@b.c", "premium", true, some 10, some "cus_1", 0⟩],
          [⟨10, 1, "premium", "active", some "cus_1", some "sub_1", some 0, some 1000,
            none, none⟩], 11⟩).findSubByStripeSubId "sub_1" =
      some ⟨10, 1, "premium", "active", some "cus_1", some "sub_1", some 0, some 2000000,
        none, none⟩ :=
  C3_payment_succeeded_replay_idempotent
    ⟨[⟨1, "a@b.c", "premium", true, some 10, some "cus_1", 0⟩],
      [⟨10, 1, "premium", "active", some "cus_1", some "sub_1", some 0, some 1000,
        none, none⟩], 11⟩
    ⟨some "sub_1", 2000⟩ "sub_1"
    ⟨10, 1, "premium", "active", some "cus_1", some "sub_1", some 0, some 1000, none, none⟩
    2 (by decide) rfl rfl (by decide)

/-- Claim C5 (counterexample): a Subscription Record already `canceled` (its
user downgraded to free and deactivated) is reactivated by a later
`invoice.payment_succeeded` webhook carrying the same provider subscription
reference: the record returns to `status = "active"` and the user to
`isSubActive = true` without any new checkout — refuting "status never
returns to active for that record". -/
theorem C5_counterexample :
    handleStripeWebhook
        ⟨[⟨1, "a@b.c", "free", false, none, some "cus_1", 0⟩],
          [⟨10, 1, "premium", "canceled", some "cus_1", some "sub_1", some 0, some 1000,
            none, none⟩], 11⟩
        (.invoicePaymentSucceeded ⟨some "sub_1", 2000⟩) =
      .ok ⟨[⟨1, "a@b.c", "free", true, none, some "cus_1", 0⟩],
        [⟨10, 1, "premium", "active", some "cus_1", some "sub_1", some 0, some 2000000,
          none, none⟩], 11⟩ := by
  rfl

/-- Claim C5 (amended): `customer.subscription.deleted` does set the record
`canceled` and the user to `plan = "free"`, `isSubActive = false`; but a
subsequently processed `invoice.payment_succeeded` event referencing the
same (already-canceled) provider subscription reference reactivates it —
the record returns to `active` with the invoice's period end and the user
to `isSubActive = true`, with no new checkout. -/
theorem C5_cancellation_not_terminal (db : DB) (s : StripeSubObj) (inv : StripeInvoiceObj)
    (sub : SubRecord) (u0 : UserRec)
    (hsub1 : db.findSubByStripeSubId s.id = some sub)
    (hsub2 : db.subs.find? (fun r => r.id == sub.id) = some sub)
    (hu : db.findUserById sub.userId = some u0)
    (hinv : inv.subscription = some s.id) :
    let db1 := stripeStep (.customerSubscriptionDeleted s) db
    let db2 := stripeStep (.invoicePaymentSucceeded inv) db1
    db1.findSubByStripeSubId s.id = some { sub with status := "canceled" } ∧
    db1.findUserById sub.userId = some { u0 with plan := "free", isSubActive := false } ∧
    db2.findSubByStripeSubId s.id =
      some { sub with status := "active", dueDate := some (inv.linePeriodEnd * 1000) } ∧
    db2.findUserById sub.userId = some { u0 with plan := "free", isSubActive := true } := by
  intro db1 db2
  have hpsub := List.find?_some hsub1
  have h1 : db1 = ({ db with subs := (updateFirstWhere (fun r => r.id == sub.id)
      (fun r => { r with status := "canceled" }) db.subs) } : DB).updateUserById
        sub.userId (fun u => { u with plan := "free", isSubActive := false }) := by
    show stripeStep _ db = _
    unfold stripeStep handleStripeWebhook
    simp only [hsub1]
  have hf1 : db1.findSubByStripeSubId s.id = some { sub with status := "canceled" } := by
    rw [h1]
    exact find?_updateFirstWhere_other _ _ _ db.subs sub hsub1 hsub2 hpsub
  have hu1 : db1.findUserById sub.userId =
      some { u0 with plan := "free", isSubActive := false } := by
    rw [h1]
    exact DB.findUserById_updateUserById_self _ sub.userId _ u0 hu rfl
  have h2 : db2 = ({ db1 with subs := (updateFirstWhere
      (fun r => r.stripeSubscriptionId == some s.id)
      (fun r => { r with status := "active", dueDate := some (inv.linePeriodEnd * 1000) })
      db1.subs) } : DB).updateUserById sub.userId (fun u => { u with isSubActive := true }) := by
    show stripeStep _ db1 = _
    unfold stripeStep handleStripeWebhook
    simp only [hinv, hf1]
  have hf2 : db2.findSubByStripeSubId s.id =
      some { sub with status := "active", dueDate := some (inv.linePeriodEnd * 1000) } := by
    rw [h2]
    exact find?_updateFirstWhere_self _ _ db1.subs { sub with status := "canceled" } hf1 hpsub
  have hu2 : db2.findUserById sub.userId =
      some { u0 with plan := "free", isSubActive := true } := by
    rw [h2]
    exact DB.findUserById_updateUserById_self _ sub.userId _ _ hu1 rfl
  exact ⟨hf1, hu1, hf2, hu2⟩

/-- Witness for C5 (amended) at a concrete cancel-then-replayed-renewal
sequence. -/
theorem C5_cancellation_not_terminal_witness :
    (stripeStep
        (.customerSubscriptionDeleted
          ⟨"sub_1", "canceled", "cus_1", "price_1RxqOcRpcgBDjLSAxTUdiLcG", 100, 200⟩)
        ⟨[⟨1, "a@b.c", "premium", true, some 10, some "cus_1", 0⟩],
          [⟨10, 1, "premium", "active", some "cus_1", some "sub_1", some 0, some 1000,
            none, none⟩], 11⟩).findUserById 1 =
      some ⟨1, "a@b.c", "free", false, some 10, some "cus_1", 0⟩ ∧
    (stripeStep (.invoicePaymentSucceeded ⟨some "sub_1", 2000⟩)
        (stripeStep
          (.customerSubscriptionDeleted
            ⟨"sub_1", "canceled", "cus_1", "price_1RxqOcRpcgBDjLSAxTUdiLcG", 100, 200⟩)
          ⟨[⟨1, "a@b.c", "premium", true, some 10, some "cus_1", 0⟩],
            [⟨10, 1, "premium", "active", some "cus_1", some "sub_1", some 0, some 1000,
              none, none⟩], 11⟩)).findSubByStripeSubId "sub_1" =
      some ⟨10, 1, "premium", "active", some "cus_1", some "sub_1", some 0, some 2000000,
        none, none⟩ :=
  have h := C5_cancellation_not_terminal
    ⟨[⟨1, "a@b.c", "premium", true, some 10, some "cus_1", 0⟩],
      [⟨10, 1, "premium", "active", some "cus_1", some "sub_1", some 0, some 1000,
        none, none⟩], 11⟩
    ⟨"sub_1", "canceled", "cus_1", "price_1RxqOcRpcgBDjLSAxTUdiLcG", 100, 200⟩
    ⟨some "sub_1", 2000⟩
    ⟨10, 1, "premium", "active", some "cus_1", some "sub_1", some 0, some 1000, none, none⟩
    ⟨1, "a@b.c", "premium", true, some 10, some "cus_1", 0⟩
    rfl rfl rfl rfl
  ⟨h.2.1, h.2.2.1⟩

/-- Claim C10 (counterexample): a `customer.subscription.updated` event
reporting the provider status `past_due` for a known customer is not copied
verbatim into the record: `runValidators` rejects the out-of-enumeration
value, the handler throws a validation error, nothing is stored and
`isSubActive` is not touched — refuting the claim's "copies the event's raw
provider status string verbatim ... can store a status value outside the
record's documented status enumeration". -/
theorem C10_counterexample :
    handleStripeWebhook ⟨[⟨1, "a@b.c", "free", false, none, some "cus_1", 0⟩], [], 10⟩
        (.customerSubscriptionUpdated
          ⟨"sub_1", "past_due", "cus_1", "price_1RxqOcRpcgBDjLSAxTUdiLcG", 100, 200⟩) =
      .error "ValidationError" ∧
    stripeStep
        (.customerSubscriptionUpdated
          ⟨"sub_1", "past_due", "cus_1", "price_1RxqOcRpcgBDjLSAxTUdiLcG", 100, 200⟩)
        ⟨[⟨1, "a@b.c", "free", false, none, some "cus_1", 0⟩], [], 10⟩ =
      ⟨[⟨1, "a@b.c", "free", false, none, some "cus_1", 0⟩], [], 10⟩ := by
  exact ⟨rfl, rfl⟩

/-- Claim C10 (amended): for a `customer.subscription.created`/`updated`
event whose customer matches a known user, the handler copies the event's
raw provider status verbatim into the record and sets `isSubActive = true`
— provided the status lies inside the schema's enumeration (so an
`updated` event reporting `canceled` still grants `isSubActive = true`);
a status outside the enumeration (such as `past_due`) instead fails the
upsert's `runValidators` check and the handler throws, storing nothing.
Both event types share one body. -/
theorem C10_subscription_event_copies_status (db : DB) (s : StripeSubObj) (user : UserRec)
    (hcust : db.users.find? (fun u => u.stripeCustomerId == some s.customer) = some user)
    (hu : db.findUserById user.id = some user) :
    handleStripeWebhook db (.customerSubscriptionCreated s) =
      handleStripeWebhook db (.customerSubscriptionUpdated s) ∧
    (subStatusValid s.status = true →
      ∃ db1 r, handleStripeWebhook db (.customerSubscriptionUpdated s) = .ok db1 ∧
        db1.findSubByUserId user.id = some r ∧ r.status = s.status ∧
        db1.findUserById user.id = some { user with
          plan := if s.priceId == "price_1RxqOcRpcgBDjLSAxTUdiLcG" then "premium"
                  else "enterprise",
          isSubActive := true }) ∧
    (subStatusValid s.status = false →
      handleStripeWebhook db (.customerSubscriptionUpdated s) = .error "ValidationError") := by
  refine ⟨rfl, ?_, ?_⟩
  · intro hval
    have hplanvalid : (subPlanIdValid
        (if s.priceId == "price_1RxqOcRpcgBDjLSAxTUdiLcG" then "premium" else "enterprise")
          && subStatusValid s.status) = true := by
      cases hc : s.priceId == "price_1RxqOcRpcgBDjLSAxTUdiLcG" <;>
        simp [subPlanIdValid, hc, hval]
    have h1 : handleStripeWebhook db (.customerSubscriptionUpdated s) =
        .ok ((db.upsertSubByUserId user.id (fun r =>
      { r with userId := user.id,
               planId := if s.priceId == "price_1RxqOcRpcgBDjLSAxTUdiLcG" then "premium"
                         else "enterprise",
               status := s.status, stripeCustomerId := some s.customer,
               stripeSubscriptionId := some s.id,
               startDate := some (s.currentPeriodStart * 1000),
               dueDate := some (s.currentPeriodEnd * 1000) })).1.updateUserById user.id
          (fun u => { u with
            plan := if s.priceId == "price_1RxqOcRpcgBDjLSAxTUdiLcG" then "premium"
                    else "enterprise",
            isSubActive := true })) := by
      unfold handleStripeWebhook applySubscriptionUpsertEvent
      simp only [hcust, hplanvalid, if_true]
    have hfind := upsertSubByUserId_find db user.id (fun r =>
      { r with userId := user.id,
               planId := if s.priceId == "price_1RxqOcRpcgBDjLSAxTUdiLcG" then "premium"
                         else "enterprise",
               status := s.status, stripeCustomerId := some s.customer,
               stripeSubscriptionId := some s.id,
               startDate := some (s.currentPeriodStart * 1000),
               dueDate := some (s.currentPeriodEnd * 1000) }) (fun x => rfl)
    have hstat := upsertSubByUserId_snd_field db user.id (fun r =>
      { r with userId := user.id,
               planId := if s.priceId == "price_1RxqOcRpcgBDjLSAxTUdiLcG" then "premium"
                         else "enterprise",
               status := s.status, stripeCustomerId := some s.customer,
               stripeSubscriptionId := some s.id,
               startDate := some (s.currentPeriodStart * 1000),
               dueDate := some (s.currentPeriodEnd * 1000) }) s.status (fun x => rfl)
    have hfu : ((db.upsertSubByUserId user.id (fun r =>
      { r with userId := user.id,
               planId := if s.priceId == "price_1RxqOcRpcgBDjLSAxTUdiLcG" then "premium"
                         else "enterprise",
               status := s.status, stripeCustomerId := some s.customer,
               stripeSubscriptionId := some s.id,
               startDate := some (s.currentPeriodStart * 1000),
               dueDate := some (s.currentPeriodEnd * 1000) })).1).findUserById user.id = some user := by
      unfold DB.findUserById
      rw [upsertSubByUserId_users]
      exact hu
    refine ⟨_, _, h1, ?_, hstat, ?_⟩
    · exact hfind
    · exact DB.findUserById_updateUserById_self _ user.id _ user hfu rfl
  · intro hval
    have hplaninvalid : (subPlanIdValid
        (if s.priceId == "price_1RxqOcRpcgBDjLSAxTUdiLcG" then "premium" else "enterprise")
          && subStatusValid s.status) = false := by
      rw [hval]
      simp
    unfold handleStripeWebhook applySubscriptionUpsertEvent
    simp only [hcust, hplaninvalid]
    rfl

/-- Witness for C10 (amended): a concrete `updated` event whose provider
status is `canceled` — within the enumeration but not active — still yields
`isSubActive = true` and a verbatim `canceled` record status. -/
theorem C10_subscription_event_copies_status_witness :
    ∃ db1 r,
      handleStripeWebhook ⟨[⟨1, "a@b.c", "free", false, none, some "cus_1", 0⟩], [], 10⟩
          (.customerSubscriptionUpdated
            ⟨"sub_1", "canceled", "cus_1", "price_1RxqOcRpcgBDjLSAxTUdiLcG", 100, 200⟩) =
        .ok db1 ∧
      db1.findSubByUserId 1 = some r ∧ r.status = "canceled" ∧
      db1.findUserById 1 =
        some ⟨1, "a@b.c",
          (if ("price_1RxqOcRpcgBDjLSAxTUdiLcG" : String) == "price_1RxqOcRpcgBDjLSAxTUdiLcG"
            then "premium" else "enterprise"), true, none, some "cus_1", 0⟩ :=
  (C10_subscription_event_copies_status
    ⟨[⟨1, "a@b.c", "free", false, none, some "cus_1", 0⟩], [], 10⟩
    ⟨"sub_1", "canceled", "cus_1", "price_1RxqOcRpcgBDjLSAxTUdiLcG", 100, 200⟩
    ⟨1, "a@b.c", "free", false, none, some "cus_1", 0⟩ rfl rfl).2.1 rfl

end SuperMeme
